import Mathlib

/-
Verification of the wdk-indexer-http client (src/index.js) against its
natural-language specification.

The JavaScript source is shallowly embedded: JSON-like runtime values become
the inductive type JsValue, the injected fetch transport becomes an explicit
behaviour datum, and the shared request executor becomes a pure function from
a client state, a request description and a transport behaviour to a record
of the observable effects of one call (URL built, headers, body, whether the
abort signal fired, whether the timer was cleared, and the outcome).
-/

set_option autoImplicit false
set_option maxRecDepth 8000

namespace WdkIndexerHttp

/-- A JavaScript runtime value, restricted to the JSON-plus-undefined fragment
that flows through this client. Objects are association lists of own
enumerable string keys; JSON-parsed data inherits only Object.prototype, whose
property names never collide with the keys this client inspects, so own-key
membership is a faithful model of the in operator on this data. -/
inductive JsValue where
  | vNull
  | vUndefined
  | vBool (b : Bool)
  | vNum (n : Int)
  | vStr (s : String)
  | vArr (elems : List JsValue)
  | vObj (fields : List (String × JsValue))

namespace JsValue

/-- The JavaScript typeof operator on the modelled fragment.
Note typeof null is the string object. -/
def jsTypeof : JsValue → String
  | .vNull => "object"
  | .vUndefined => "undefined"
  | .vBool _ => "boolean"
  | .vNum _ => "number"
  | .vStr _ => "string"
  | .vArr _ => "object"
  | .vObj _ => "object"

/-- JavaScript truthiness of the modelled fragment (NaN is outside the
model; every object and array is truthy). -/
def truthy : JsValue → Bool
  | .vNull => false
  | .vUndefined => false
  | .vBool b => b
  | .vNum n => n != 0
  | .vStr s => s != ""
  | .vArr _ => true
  | .vObj _ => true

end JsValue

/-- Own-key membership for an object field list. -/
def objHasKey (fields : List (String × JsValue)) (k : String) : Bool :=
  fields.any fun f => f.1 == k

/-- The JavaScript in operator: defined on objects and arrays (for arrays the
own keys are the element indices and length); applied to null, undefined or a
primitive it throws a TypeError, modelled as the error branch of Except. -/
def jsInOp (k : String) : JsValue → Except String Bool
  | .vObj fields => .ok (objHasKey fields k)
  | .vArr elems =>
    .ok (k == "length" || (List.range elems.length).any fun i => toString i == k)
  | _ => .error "TypeError"

/-- Property read obj.k: the first binding of k in an object field list,
undefined when absent or when the receiver is not an object. -/
def jsGet (k : String) : JsValue → JsValue
  | .vObj fields =>
    match fields.find? (fun f => f.1 == k) with
    | some f => f.2
    | none => .vUndefined
  | _ => .vUndefined

/-- Embeds isApiError from src/index.js. The source is a short-circuit
conjunction: typeof response is object, response is not null, and the three
keys error, message, status are all present; the nesting below mirrors the
short-circuit order, so the in operator is only reached behind the typeof and
null guards. The Except codomain records that the in operator can throw; the
guards make the error branch unreachable, which is proved separately. -/
def isApiError (response : JsValue) : Except String Bool :=
  if response.jsTypeof == "object" then
    match response with
    | .vNull => .ok false
    | r => do
      let h1 ← jsInOp "error" r
      if h1 then do
        let h2 ← jsInOp "message" r
        if h2 then jsInOp "status" r
        else pure false
      else pure false
  else .ok false

/-- Embeds isTokenTransfersResponse from src/index.js: the bare membership
test of the key transfers, with no object guard. -/
def isTokenTransfersResponse (item : JsValue) : Except String Bool :=
  jsInOp "transfers" item

/-- Embeds isTokenBalanceResponse from src/index.js: the bare membership
test of the key tokenBalance, with no object guard. -/
def isTokenBalanceResponse (item : JsValue) : Except String Bool :=
  jsInOp "tokenBalance" item

/-- Uppercase hexadecimal digit for a value below 16. -/
def hexDigitUpper (n : Nat) : Char :=
  if n < 10 then Char.ofNat (48 + n) else Char.ofNat (55 + n)

/-- Percent-escape of one byte: the percent sign followed by two uppercase
hexadecimal digits, as produced by encodeURIComponent and URLSearchParams. -/
def byteHex (b : Nat) : List Char :=
  [Char.ofNat 37, hexDigitUpper (b / 16), hexDigitUpper (b % 16)]

/-- UTF-8 byte sequence of a Unicode code point. -/
def utf8Bytes (n : Nat) : List Nat :=
  if n < 128 then [n]
  else if n < 2048 then [192 + n / 64, 128 + n % 64]
  else if n < 65536 then [224 + n / 4096, 128 + (n / 64) % 64, 128 + n % 64]
  else [240 + n / 262144, 128 + (n / 4096) % 64, 128 + (n / 64) % 64,
        128 + n % 64]

/-- Characters encodeURIComponent leaves unescaped: ASCII letters and digits
and - _ . ! ~ * ( ) and the single-quote character (code 39). -/
def isURIUnescaped (c : Char) : Bool :=
  (97 ≤ c.toNat && c.toNat ≤ 122) || (65 ≤ c.toNat && c.toNat ≤ 90) ||
  (48 ≤ c.toNat && c.toNat ≤ 57) ||
  c == '-' || c == '_' || c == '.' || c == '!' || c == '~' || c == '*' ||
  c == Char.ofNat 39 || c == '(' || c == ')'

/-- One character of encodeURIComponent output. -/
def encodeURIChar (c : Char) : List Char :=
  if isURIUnescaped c then [c] else (utf8Bytes c.toNat).foldr (byteHex · ++ ·) []

/-- The JavaScript encodeURIComponent builtin on the modelled strings. -/
def encodeURIComponent (s : String) : String :=
  String.mk (s.toList.foldr (encodeURIChar · ++ ·) [])

/-- Characters the application/x-www-form-urlencoded serializer (used by
URLSearchParams.toString) leaves unescaped: ASCII letters and digits and
* - . _ ; space becomes a plus sign, every other character is
percent-escaped per UTF-8 byte. -/
def isFormUnescaped (c : Char) : Bool :=
  (97 ≤ c.toNat && c.toNat ≤ 122) || (65 ≤ c.toNat && c.toNat ≤ 90) ||
  (48 ≤ c.toNat && c.toNat ≤ 57) ||
  c == '*' || c == '-' || c == '.' || c == '_'

/-- One character of urlencoded serializer output. -/
def formEncodeChar (c : Char) : List Char :=
  if isFormUnescaped c then [c]
  else if c == ' ' then ['+']
  else (utf8Bytes c.toNat).foldr (byteHex · ++ ·) []

/-- The application/x-www-form-urlencoded escaping of one string. -/
def formEncode (s : String) : String :=
  String.mk (s.toList.foldr (formEncodeChar · ++ ·) [])

/-- A query value as typed in src/index.js: string, number or undefined. -/
inductive QueryVal where
  | num (n : Int)
  | str (s : String)
  | undefined

/-- Whether a query value is the JavaScript undefined. -/
def QueryVal.isUndefined : QueryVal → Bool
  | .undefined => true
  | _ => false

/-- The JavaScript String coercion of a query value. -/
def QueryVal.stringify : QueryVal → String
  | .num n => toString n
  | .str s => s
  | .undefined => "undefined"

/-- The loop of the request executor that fills a URLSearchParams: entries are
appended in order, skipping those whose value is undefined; the appended value
is the String coercion of the original. -/
def buildParams (q : List (String × QueryVal)) : List (String × String) :=
  q.foldl (fun acc e =>
    if e.2.isUndefined then acc else acc ++ [(e.1, e.2.stringify)]) []

/-- URLSearchParams.toString: the urlencoded serialization of the appended
pairs, joined by ampersands in insertion order. -/
def paramsToString (params : List (String × String)) : String :=
  String.intercalate "&" (params.map fun p => formEncode p.1 ++ "=" ++ formEncode p.2)

/-- The query string the executor computes from a query mapping. -/
def queryString (q : List (String × QueryVal)) : String :=
  paramsToString (buildParams q)

/-- URL construction of the request executor: baseUrl concatenated with the
path, then the query string preceded by a question mark when the query mapping
is present and its serialization is non-empty. -/
def buildUrl (baseUrl path : String) (query : Option (List (String × QueryVal))) :
    String :=
  let url := baseUrl ++ path
  match query with
  | none => url
  | some q =>
    let qs := queryString q
    if qs == "" then url else url ++ "?" ++ qs

/-- Supported blockchain networks (the BLOCKCHAINS export). -/
def BLOCKCHAINS : List String :=
  ["ethereum", "sepolia", "plasma", "arbitrum", "polygon", "tron", "ton",
   "bitcoin", "spark"]

/-- Supported tokens (the TOKENS export). -/
def TOKENS : List String := ["usdt", "xaut", "btc"]

/-- The SDK error hierarchy of src/index.js as one inductive type: base is
the WdkIndexerError class itself (instantiated directly only by the
constructor, for configuration failures), and the other constructors are the
three subclasses WdkIndexerApiError, WdkIndexerTimeoutError and
WdkIndexerNetworkError. The api fields are the untrusted payload properties
read off the JSON value; the network cause is the name and message of the
wrapped original Error when one exists. -/
inductive WdkIndexerError where
  | base (message : String)
  | apiError (errorType message status : JsValue)
  | timeoutError (timeout : Int)
  | networkError (message : String) (cause : Option (String × String))

/-- The WdkIndexerApiError constructor applied to a payload object: it reads
the error, message and status properties of the payload. -/
def mkApiError (payload : JsValue) : WdkIndexerError :=
  .apiError (jsGet "error" payload) (jsGet "message" payload)
    (jsGet "status" payload)

/-- A value thrown by JavaScript code inside the try block: an instance of
the SDK hierarchy, some other Error instance (known by its name and message),
or a non-Error value. -/
inductive Thrown where
  | wdk (e : WdkIndexerError)
  | jsError (name message : String)
  | nonError (v : JsValue)

/-- Escape of one character inside a JSON string literal (the control-char
shorthands of the builtin are folded into the uXXa form, which no claim
observes). -/
def jsonEscapeChar (c : Char) : List Char :=
  if c == Char.ofNat 34 then [Char.ofNat 92, Char.ofNat 34]
  else if c == Char.ofNat 92 then [Char.ofNat 92, Char.ofNat 92]
  else if c.toNat < 32 then
    [Char.ofNat 92, 'u', '0', '0', hexDigitUpper (c.toNat / 16),
     hexDigitUpper (c.toNat % 16)]
  else [c]

/-- A JSON string literal for s. -/
def jsonQuote (s : String) : String :=
  String.mk (Char.ofNat 34 :: s.toList.foldr (jsonEscapeChar · ++ ·) [Char.ofNat 34])

mutual

/-- The JSON.stringify builtin on the modelled fragment: undefined only
occurs below the top level here (the executor never stringifies a falsy
body), where it serializes as null inside arrays and drops the field inside
objects. -/
def jsonStringify : JsValue → String
  | .vNull => "null"
  | .vUndefined => "null"
  | .vBool b => cond b "true" "false"
  | .vNum n => toString n
  | .vStr s => jsonQuote s
  | .vArr elems => "[" ++ jsonStringifyElems elems ++ "]"
  | .vObj fields => "\x7b" ++ jsonStringifyFields fields ++ "\x7d"
termination_by v => sizeOf v

/-- Comma-separated serialization of array elements. -/
def jsonStringifyElems : List JsValue → String
  | [] => ""
  | [v] => jsonStringify v
  | v :: rest => jsonStringify v ++ "," ++ jsonStringifyElems rest
termination_by l => sizeOf l

/-- Comma-separated serialization of object fields; fields whose value is
undefined are dropped. -/
def jsonStringifyFields : List (String × JsValue) → String
  | [] => ""
  | (_, .vUndefined) :: rest => jsonStringifyFields rest
  | (k, v) :: rest =>
    let here := jsonQuote k ++ ":" ++ jsonStringify v
    match jsonStringifyFields rest with
    | "" => here
    | r => here ++ "," ++ r
termination_by l => sizeOf l

end

/-- The configuration object passed to the constructor; absent fields are
none. fetchProvided records whether config.fetch was supplied. -/
structure ClientConfig where
  apiKey : Option String
  baseUrl : Option String
  timeout : Option Int
  fetchProvided : Bool

/-- JavaScript truthiness of an optional string field. -/
def strTruthy : Option String → Bool
  | some s => s != ""
  | none => false

/-- JavaScript truthiness of an optional numeric field (NaN is outside the
model). -/
def numTruthy : Option Int → Bool
  | some n => n != 0
  | none => false

/-- The replace of a trailing-slash regular expression with the empty string:
at most one trailing slash is removed. -/
def stripTrailingSlash (s : String) : String :=
  if s.endsWith "/" then s.dropRight 1 else s

/-- The client state after successful construction. -/
structure WdkIndexerClient where
  apiKey : String
  baseUrl : String
  timeout : Int

/-- Embeds the WdkIndexerClient constructor: throw the base SDK error when
apiKey is falsy; normalize baseUrl by the default then one trailing-slash
strip; default timeout to 30000 when falsy; resolve the transport as the
injected fetch or the platform global, and throw the base SDK error when
neither exists. globalFetchAvailable states whether globalThis.fetch is
defined in the host environment. -/
def mkClient (config : ClientConfig) (globalFetchAvailable : Bool) :
    Except WdkIndexerError WdkIndexerClient :=
  if !strTruthy config.apiKey then .error (.base "API key is required")
  else
    let apiKey := config.apiKey.getD ""
    let rawBase :=
      if strTruthy config.baseUrl then config.baseUrl.getD ""
      else "https://wdk-api.tether.io"
    let baseUrl := stripTrailingSlash rawBase
    let timeout :=
      if numTruthy config.timeout then config.timeout.getD 0 else 30000
    let fetchAvailable := config.fetchProvided || globalFetchAvailable
    if !fetchAvailable then
      .error (.base
        "fetch is not available. Please provide a custom fetch implementation or use Node.js 18+.")
    else .ok ⟨apiKey, baseUrl, timeout⟩

/-- The outcome of awaiting response.json(): a parsed value, or a thrown
failure (for example a SyntaxError when the body is not JSON). -/
inductive JsonResult where
  | parses (v : JsValue)
  | throwsJson (t : Thrown)

/-- One call's behaviour of the injected transport. resolves carries the
response fields the executor reads (ok, status, statusText) and the behaviour
of its json() method; rejects is a rejection of the fetch promise itself;
hangs means the transport does not settle before the configured timer fires,
in which case the timer callback invokes abort on the controller and the
aborted fetch rejects with an Error named AbortError. -/
inductive TransportBehavior where
  | resolves (ok : Bool) (status : Int) (statusText : String) (body : JsonResult)
  | rejects (t : Thrown)
  | hangs

/-- Request options of the executor: an optional query mapping and an
optional JSON body. -/
structure ReqOptions where
  query : Option (List (String × QueryVal))
  body : Option JsValue

/-- The observable effects of one executor call. -/
structure RequestResult where
  url : String
  method : String
  headers : List (String × String)
  bodySent : Option String
  abortInvoked : Bool
  timerCleared : Bool
  outcome : Except Thrown JsValue

/-- The object literal the executor synthesizes for a non-ok response whose
body is not an ApiErrorPayload: code UnknownError, a message built from the
raw HTTP status and status text, and the raw status. -/
def synthPayload (status : Int) (statusText : String) : JsValue :=
  .vObj [("error", .vStr "UnknownError"),
         ("message", .vStr ("HTTP " ++ toString status ++ ": " ++ statusText)),
         ("status", .vNum status)]

/-- The try block of the executor, given the transport behaviour: the result
of the awaited work and whether the timer fired and aborted the controller.
On resolution the body is parsed first; a non-ok status then throws a
WdkIndexerApiError built from the payload when it has the ApiErrorPayload
shape, else from the synthesized payload. -/
def tryBlock (behavior : TransportBehavior) : Except Thrown JsValue × Bool :=
  match behavior with
  | .hangs => (.error (.jsError "AbortError" "This operation was aborted"), true)
  | .rejects t => (.error t, false)
  | .resolves ok status statusText body =>
    match body with
    | .throwsJson t => (.error t, false)
    | .parses data =>
      if !ok then
        match isApiError data with
        | .error e => (.error (.jsError "TypeError" e), false)
        | .ok true => (.error (.wdk (mkApiError data)), false)
        | .ok false =>
          (.error (.wdk (mkApiError (synthPayload status statusText))), false)
      else (.ok data, false)

/-- The catch clause of the executor: an SDK error is re-thrown as-is; an
Error named AbortError becomes the timeout error carrying the configured
duration; any other Error becomes the network error with the original message
and the original as cause; a non-Error thrown value becomes the network error
with a generic message and no cause. -/
def catchClause (timeoutMs : Int) : Thrown → Thrown
  | .wdk e => .wdk e
  | .jsError name message =>
    if name == "AbortError" then .wdk (.timeoutError timeoutMs)
    else .wdk (.networkError message (some (name, message)))
  | .nonError _ => .wdk (.networkError "An unknown error occurred" none)

/-- Embeds WdkIndexerClient._request: build the URL from baseUrl, path and
the query mapping; set the api-key and content-type headers; serialize a
truthy body; start the timer and run the try block against the transport
behaviour; map anything thrown through the catch clause; the finally clause
clears the timer on every path, so timerCleared is unconditionally true. -/
def WdkIndexerClient.request (client : WdkIndexerClient) (method path : String)
    (options : Option ReqOptions) (behavior : TransportBehavior) : RequestResult :=
  let url := buildUrl client.baseUrl path (options.bind (·.query))
  let headers := [("x-api-key", client.apiKey),
                  ("Content-Type", "application/json")]
  let bodySent :=
    match options.bind (·.body) with
    | some b => if b.truthy then some (jsonStringify b) else none
    | none => none
  let tried := tryBlock behavior
  let outcome :=
    match tried.1 with
    | .ok v => .ok v
    | .error t => .error (catchClause client.timeout t)
  ⟨url, method, headers, bodySent, tried.2, true, outcome⟩

/-- Options of getTokenTransfers; absent fields are none. -/
structure TransferOptions where
  limit : Option Int
  fromTs : Option Int
  toTs : Option Int

/-- The optional-chain read options?.limit as a query value. -/
def optQ (o : Option Int) : QueryVal :=
  match o with
  | some n => .num n
  | none => .undefined

/-- Embeds WdkIndexerClient.health: GET the fixed health path with no
options. -/
def WdkIndexerClient.health (client : WdkIndexerClient)
    (behavior : TransportBehavior) : RequestResult :=
  client.request "GET" "/api/v1/health" none behavior

/-- Embeds WdkIndexerClient.getTokenTransfers: GET the path parameterized by
blockchain, token and the percent-encoded address, with the query object that
always carries the keys limit, fromTs, toTs (each undefined when not
supplied). -/
def WdkIndexerClient.getTokenTransfers (client : WdkIndexerClient)
    (blockchain token address : String) (options : Option TransferOptions)
    (behavior : TransportBehavior) : RequestResult :=
  client.request "GET"
    ("/api/v1/" ++ blockchain ++ "/" ++ token ++ "/" ++
      encodeURIComponent address ++ "/token-transfers")
    (some ⟨some
      [("limit", optQ (options.bind (·.limit))),
       ("fromTs", optQ (options.bind (·.fromTs))),
       ("toTs", optQ (options.bind (·.toTs)))], none⟩)
    behavior

/-- Embeds WdkIndexerClient.getTokenBalance: GET the path parameterized by
blockchain, token and the percent-encoded address, with no options. -/
def WdkIndexerClient.getTokenBalance (client : WdkIndexerClient)
    (blockchain token address : String) (behavior : TransportBehavior) :
    RequestResult :=
  client.request "GET"
    ("/api/v1/" ++ blockchain ++ "/" ++ token ++ "/" ++
      encodeURIComponent address ++ "/token-balances")
    none behavior

/-- Embeds WdkIndexerClient.getBatchTokenTransfers: POST the fixed batch path
with the requests array as body. -/
def WdkIndexerClient.getBatchTokenTransfers (client : WdkIndexerClient)
    (requests : List JsValue) (behavior : TransportBehavior) : RequestResult :=
  client.request "POST" "/api/v1/batch/token-transfers"
    (some ⟨none, some (.vArr requests)⟩) behavior

/-- Embeds WdkIndexerClient.getBatchTokenBalances: POST the fixed batch path
with the requests array as body. -/
def WdkIndexerClient.getBatchTokenBalances (client : WdkIndexerClient)
    (requests : List JsValue) (behavior : TransportBehavior) : RequestResult :=
  client.request "POST" "/api/v1/batch/token-balances"
    (some ⟨none, some (.vArr requests)⟩) behavior

/-- Whether a value is a legal left operand of the in operator (an object or
an array in the modelled fragment); null, undefined and primitives are not. -/
def isInOperand : JsValue → Bool
  | .vObj _ => true
  | .vArr _ => true
  | _ => false

/-- Whether the character list n occurs at the head of h. -/
def leadsWith : List Char → List Char → Bool
  | [], _ => true
  | _ :: _, [] => false
  | a :: as, b :: bs => a == b && leadsWith as bs

/-- Whether the character list n occurs contiguously anywhere in h. -/
def containsSeq (n : List Char) : List Char → Bool
  | [] => leadsWith n []
  | b :: bs => leadsWith n (b :: bs) || containsSeq n bs

/-- Whether needle occurs as a contiguous substring of hay. -/
def strContainsSub (hay needle : String) : Bool :=
  containsSeq needle.toList hay.toList

/-- Whether an SDK error is the construction-time configuration kind (a
direct instance of the base class, not of any subclass). -/
def WdkIndexerError.isConfigKind : WdkIndexerError → Bool
  | .base _ => true
  | _ => false

/-- A concretely configured client used by witnesses and counterexamples. -/
def clientEx : WdkIndexerClient := ⟨"test-key", "https://wdk-api.tether.io", 30000⟩

/-- A non-ok 500 response whose body is not JSON: its json() method rejects
with a SyntaxError, as fetch does on an unparseable body. -/
def behaviorBadJson : TransportBehavior :=
  .resolves false 500 "Internal Server Error"
    (.throwsJson (.jsError "SyntaxError" "Unexpected token"))

/-- The 401 ApiErrorPayload of the specification's HTTP-error example. -/
def payload401 : JsValue :=
  .vObj [("error", .vStr "Unauthorized"),
         ("message", .vStr "Invalid API key"),
         ("status", .vNum 401)]

/-- A transport rejection with a non-Error value that carries a message
field. -/
def behaviorNonError : TransportBehavior :=
  .rejects (.nonError (.vObj [("message", .vStr "boom")]))

/-- The URL built by a transfers call that supplies only the limit option. -/
def urlLimitOnly : String :=
  (clientEx.getTokenTransfers "ethereum" "usdt" "0xabc"
    (some ⟨some 10, none, none⟩) .hangs).url

/- Shared lemmas about the executor. -/

theorem catchClause_wdk (ms : Int) (t : Thrown) :
    ∃ e, catchClause ms t = .wdk e := by
  cases t with
  | wdk e => exact ⟨e, rfl⟩
  | jsError name message =>
    simp only [catchClause]
    split
    · exact ⟨_, rfl⟩
    · exact ⟨_, rfl⟩
  | nonError v => exact ⟨_, rfl⟩

theorem request_outcome_eq (c : WdkIndexerClient) (m p : String)
    (o : Option ReqOptions) (b : TransportBehavior) :
    (c.request m p o b).outcome =
      match (tryBlock b).1 with
      | .ok v => .ok v
      | .error t => .error (catchClause c.timeout t) := rfl

theorem request_outcome_wdk (c : WdkIndexerClient) (m p : String)
    (o : Option ReqOptions) (b : TransportBehavior) (t : Thrown)
    (h : (c.request m p o b).outcome = .error t) : ∃ e, t = Thrown.wdk e := by
  rw [request_outcome_eq] at h
  cases htb : (tryBlock b).1 with
  | ok v => rw [htb] at h; exact absurd h (by simp)
  | error t0 =>
    rw [htb] at h
    obtain ⟨e, he⟩ := catchClause_wdk c.timeout t0
    injection h with h2
    exact ⟨e, by rw [← h2, he]⟩

/-- C2: for every behaviour of the injected transport (resolving, rejecting
with an Error, rejecting with a non-Error value, or returning a body whose
parse fails), any failure raised by any of the five public operations is a
value of the single SDK error type WdkIndexerError, whose four constructors
are the configuration (base), api, timeout and network kinds; no raw thrown
value escapes the catch clause. -/
theorem c2_failures_typed (c : WdkIndexerClient) (b : TransportBehavior)
    (t : Thrown) :
    ((c.health b).outcome = .error t → ∃ e, t = Thrown.wdk e) ∧
    (∀ bc tok addr opts,
      (c.getTokenTransfers bc tok addr opts b).outcome = .error t →
        ∃ e, t = Thrown.wdk e) ∧
    (∀ bc tok addr,
      (c.getTokenBalance bc tok addr b).outcome = .error t →
        ∃ e, t = Thrown.wdk e) ∧
    (∀ reqs,
      (c.getBatchTokenTransfers reqs b).outcome = .error t →
        ∃ e, t = Thrown.wdk e) ∧
    (∀ reqs,
      (c.getBatchTokenBalances reqs b).outcome = .error t →
        ∃ e, t = Thrown.wdk e) := by
  refine ⟨fun h => request_outcome_wdk _ _ _ _ _ _ h,
    fun bc tok addr opts h => request_outcome_wdk _ _ _ _ _ _ h,
    fun bc tok addr h => request_outcome_wdk _ _ _ _ _ _ h,
    fun reqs h => request_outcome_wdk _ _ _ _ _ _ h,
    fun reqs h => request_outcome_wdk _ _ _ _ _ _ h⟩

/-- Witness for C2: the health call against a transport that rejects with a
non-Error value fails, and the failure is the wrapped network kind. -/
theorem c2_failures_typed_witness :
    ∃ e, Thrown.wdk (.networkError "An unknown error occurred" none) =
      Thrown.wdk e :=
  (c2_failures_typed clientEx behaviorNonError
    (Thrown.wdk (.networkError "An unknown error occurred" none))).1 rfl

/-- C3: whenever the timer fires before the transport settles (the hangs
behaviour), the abort signal is invoked on the in-flight call and the
operation fails with the timeout error carrying the configured duration; and
on every completion path, success or failure, the timer is cleared (the
finally clause runs unconditionally). -/
theorem c3_timeout_abort_timer (c : WdkIndexerClient) (m p : String)
    (o : Option ReqOptions) :
    ((c.request m p o .hangs).abortInvoked = true ∧
     (c.request m p o .hangs).outcome =
       .error (.wdk (.timeoutError c.timeout)) ∧
     (c.health .hangs).outcome = .error (.wdk (.timeoutError c.timeout))) ∧
    (∀ b, (c.request m p o b).timerCleared = true) := by
  refine ⟨⟨rfl, ?_, ?_⟩, fun b => rfl⟩ <;> rfl

/-- C5: for every batch call whose POST resolves with a success HTTP status
and a parsed response array, the operation returns the server's array
verbatim, whatever its items are, including ApiErrorPayload items standing
for per-item failures, so no per-item failure raises an error and the
returned array has exactly the length and order of the server's array; when
the server honours the contract that its array matches the request array in
length, the returned array has the request array's length; and only failure
of the batch HTTP call itself yields an error, which is always a typed SDK
error. -/
theorem c5_batch_verbatim (c : WdkIndexerClient)
    (requests items : List JsValue) (st : Int) (stx : String) :
    ((c.getBatchTokenTransfers requests
        (.resolves true st stx (.parses (.vArr items)))).outcome =
          .ok (.vArr items) ∧
     (c.getBatchTokenBalances requests
        (.resolves true st stx (.parses (.vArr items)))).outcome =
          .ok (.vArr items)) ∧
    (items.length = requests.length →
      ∃ out, (c.getBatchTokenTransfers requests
          (.resolves true st stx (.parses (.vArr items)))).outcome =
            .ok (.vArr out) ∧
        out.length = requests.length ∧ out = items) ∧
    (∀ b t, (c.getBatchTokenTransfers requests b).outcome = .error t →
      ∃ e, t = Thrown.wdk e) := by
  refine ⟨⟨rfl, rfl⟩, fun h => ⟨items, rfl, h, rfl⟩,
    fun b t h => request_outcome_wdk _ _ _ _ _ _ h⟩

/-- Witness for C5: a two-slot batch whose second slot is an ApiErrorPayload
is returned verbatim with the request's length. -/
theorem c5_batch_verbatim_witness :
    ∃ out, (clientEx.getBatchTokenTransfers
        [JsValue.vObj [("blockchain", .vStr "ethereum")],
         JsValue.vObj [("blockchain", .vStr "tron")]]
        (.resolves true 200 "OK" (.parses (.vArr
          [JsValue.vObj [("transfers", .vArr [])],
           JsValue.vObj [("error", .vStr "NotFound"),
                         ("message", .vStr "Address not found"),
                         ("status", .vNum 404)]])))).outcome =
      .ok (.vArr out) ∧
    out.length = 2 ∧
    out = [JsValue.vObj [("transfers", .vArr [])],
           JsValue.vObj [("error", .vStr "NotFound"),
                         ("message", .vStr "Address not found"),
                         ("status", .vNum 404)]] :=
  (c5_batch_verbatim clientEx
    [JsValue.vObj [("blockchain", .vStr "ethereum")],
     JsValue.vObj [("blockchain", .vStr "tron")]]
    [JsValue.vObj [("transfers", .vArr [])],
     JsValue.vObj [("error", .vStr "NotFound"),
                   ("message", .vStr "Address not found"),
                   ("status", .vNum 404)]] 200 "OK").2.1 rfl

/-- Counterexample to C1 as stated: a response with the non-success status
500 whose body fails to parse as JSON makes the health call fail with the
network kind, not the api kind, because the executor awaits response.json()
before inspecting response.ok and the SyntaxError takes the generic failure
branch of the catch clause. -/
theorem c1_counterexample :
    (clientEx.health behaviorBadJson).outcome =
      .error (.wdk (.networkError "Unexpected token"
        (some ("SyntaxError", "Unexpected token")))) ∧
    ∀ a b c, (clientEx.health behaviorBadJson).outcome ≠
      .error (.wdk (.apiError a b c)) := by
  refine ⟨rfl, fun a b c h => ?_⟩
  rw [show (clientEx.health behaviorBadJson).outcome =
      .error (.wdk (.networkError "Unexpected token"
        (some ("SyntaxError", "Unexpected token")))) from rfl] at h
  simp at h

/-- C1 amended: for every response with a non-success HTTP status whose body
parses as JSON, the operation fails with the api kind, carrying the payload's
error, message and status when the payload has the ApiErrorPayload shape and
otherwise the synthesized payload with code UnknownError built from the raw
status and status text; a non-success response whose body fails to parse as
JSON instead routes the parse failure through the generic failure mapping, so
an ordinary parse error yields the network kind. -/
theorem c1_nonok_mapping :
    (∀ (c : WdkIndexerClient) (m p : String) (o : Option ReqOptions)
       (st : Int) (stx : String) (d : JsValue) (shape : Bool),
      isApiError d = .ok shape →
      (c.request m p o (.resolves false st stx (.parses d))).outcome =
        .error (.wdk (mkApiError (if shape then d else synthPayload st stx)))) ∧
    (∀ (c : WdkIndexerClient) (m p : String) (o : Option ReqOptions)
       (st : Int) (stx : String) (name msg : String),
      (name == "AbortError") = false →
      (c.request m p o
          (.resolves false st stx (.throwsJson (.jsError name msg)))).outcome =
        .error (.wdk (.networkError msg (some (name, msg))))) := by
  constructor
  · intro c m p o st stx d shape h
    rw [request_outcome_eq]
    simp only [tryBlock, Bool.not_true, h]
    cases shape with
    | true => rfl
    | false => rfl
  · intro c m p o st stx name msg h
    rw [request_outcome_eq]
    simp only [tryBlock, catchClause, h]
    rfl

/-- Witness for C1 amended: the specification's 401 example, a non-ok
response with the Unauthorized payload, fails with the api kind carrying
error type Unauthorized, message Invalid API key and status 401. -/
theorem c1_nonok_mapping_witness :
    (clientEx.request "GET" "/api/v1/health" none
        (.resolves false 401 "Unauthorized" (.parses payload401))).outcome =
      .error (.wdk (.apiError (.vStr "Unauthorized") (.vStr "Invalid API key")
        (.vNum 401))) := by
  have h := c1_nonok_mapping.1 clientEx "GET" "/api/v1/health" none
    401 "Unauthorized" payload401 true rfl
  simpa [payload401, mkApiError, jsGet] using h

/-- Counterexample to C4 as stated: a transport rejection with the non-Error
value having the message field boom is a transport-level failure that is
neither an abort nor a typed SDK error, yet the call fails with the network
kind carrying the generic message and no cause, not the original value's
message boom nor the original value as cause. -/
theorem c4_counterexample :
    (clientEx.health behaviorNonError).outcome =
      .error (.wdk (.networkError "An unknown error occurred" none)) ∧
    ∀ cause, (clientEx.health behaviorNonError).outcome ≠
      .error (.wdk (.networkError "boom" cause)) := by
  refine ⟨rfl, fun cause h => ?_⟩
  rw [show (clientEx.health behaviorNonError).outcome =
      .error (.wdk (.networkError "An unknown error occurred" none)) from rfl] at h
  simp at h

/-- C4 amended: a transport rejection with an Error that is neither named
AbortError nor a typed SDK error maps to the network kind carrying the
original message and the original as cause; a rejection with a non-Error
value maps to the network kind with the generic message and no cause; a
rejection with an Error named AbortError takes the timeout branch; a
rejection with a typed SDK error is re-raised as-is. -/
theorem c4_transport_failure_mapping :
    (∀ (c : WdkIndexerClient) (m p : String) (o : Option ReqOptions)
       (name msg : String),
      (name == "AbortError") = false →
      (c.request m p o (.rejects (.jsError name msg))).outcome =
        .error (.wdk (.networkError msg (some (name, msg))))) ∧
    (∀ (c : WdkIndexerClient) (m p : String) (o : Option ReqOptions)
       (v : JsValue),
      (c.request m p o (.rejects (.nonError v))).outcome =
        .error (.wdk (.networkError "An unknown error occurred" none))) ∧
    (∀ (c : WdkIndexerClient) (m p : String) (o : Option ReqOptions)
       (msg : String),
      (c.request m p o (.rejects (.jsError "AbortError" msg))).outcome =
        .error (.wdk (.timeoutError c.timeout))) ∧
    (∀ (c : WdkIndexerClient) (m p : String) (o : Option ReqOptions)
       (e : WdkIndexerError),
      (c.request m p o (.rejects (.wdk e))).outcome =
        .error (.wdk e)) := by
  refine ⟨?_, fun c m p o v => rfl, fun c m p o msg => rfl,
    fun c m p o e => rfl⟩
  intro c m p o name msg h
  rw [request_outcome_eq]
  simp only [tryBlock, catchClause, h]
  rfl

/-- Witness for C4 amended: the specification's network example, a rejection
with an Error whose message is Connection refused, fails with the network
kind carrying that message and the original as cause. -/
theorem c4_transport_failure_mapping_witness :
    (clientEx.request "GET" "/api/v1/health" none
        (.rejects (.jsError "Error" "Connection refused"))).outcome =
      .error (.wdk (.networkError "Connection refused"
        (some ("Error", "Connection refused")))) :=
  c4_transport_failure_mapping.1 clientEx "GET" "/api/v1/health" none
    "Error" "Connection refused" rfl

theorem isApiError_eval (v : JsValue) (b1 b2 b3 : Bool)
    (h1 : jsInOp "error" v = .ok b1) (h2 : jsInOp "message" v = .ok b2)
    (h3 : jsInOp "status" v = .ok b3) :
    isApiError v = .ok (b1 && b2 && b3) := by
  cases v
  case vNull => exact Except.noConfusion h1
  case vUndefined => exact Except.noConfusion h1
  case vBool b => exact Except.noConfusion h1
  case vNum n => exact Except.noConfusion h1
  case vStr s => exact Except.noConfusion h1
  all_goals simp only [jsInOp, Except.ok.injEq] at h1 h2 h3
  case vArr elems =>
    simp only [isApiError, JsValue.jsTypeof, jsInOp, bind, Except.bind, pure,
      Except.pure, ← h1, ← h2, ← h3]
    cases hb1 : ("length" == "error" ||
        (List.range elems.length).any fun i => toString i == "error") <;>
      simp_all <;>
      cases hb2 : (List.range elems.length).any (fun i => toString i == "message") <;>
      simp_all
  case vObj fields =>
    simp only [isApiError, JsValue.jsTypeof, jsInOp, bind, Except.bind, pure,
      Except.pure, ← h1, ← h2, ← h3]
    cases hb1 : objHasKey fields "error" <;> simp_all <;>
      cases hb2 : objHasKey fields "message" <;> simp_all

/-- C6: over the three documented response shapes, the three classifiers are
mutually exclusive and exhaustive, each one accepting exactly its own shape;
and isApiError accepts a value exactly when it is a non-null object carrying
all three keys error, message and status. -/
theorem c6_classifiers_exclusive_exhaustive :
    (∀ ts, isApiError (.vObj [("transfers", ts)]) = .ok false ∧
      isTokenTransfersResponse (.vObj [("transfers", ts)]) = .ok true ∧
      isTokenBalanceResponse (.vObj [("transfers", ts)]) = .ok false) ∧
    (∀ bal, isApiError (.vObj [("tokenBalance", bal)]) = .ok false ∧
      isTokenTransfersResponse (.vObj [("tokenBalance", bal)]) = .ok false ∧
      isTokenBalanceResponse (.vObj [("tokenBalance", bal)]) = .ok true) ∧
    (∀ e m s,
      isApiError (.vObj [("error", e), ("message", m), ("status", s)]) =
        .ok true ∧
      isTokenTransfersResponse
        (.vObj [("error", e), ("message", m), ("status", s)]) = .ok false ∧
      isTokenBalanceResponse
        (.vObj [("error", e), ("message", m), ("status", s)]) = .ok false) ∧
    (∀ v, isApiError v = .ok true ↔
      (v.jsTypeof = "object" ∧ v ≠ .vNull ∧ jsInOp "error" v = .ok true ∧
       jsInOp "message" v = .ok true ∧ jsInOp "status" v = .ok true)) := by
  refine ⟨fun ts => ⟨rfl, rfl, rfl⟩, fun bal => ⟨rfl, rfl, rfl⟩,
    fun e m s => ⟨rfl, rfl, rfl⟩, fun v => ?_⟩
  cases v with
  | vArr elems =>
    rw [isApiError_eval (.vArr elems) _ _ _ rfl rfl rfl]
    simp [jsInOp, JsValue.jsTypeof]
    tauto
  | vObj fields =>
    rw [isApiError_eval (.vObj fields) _ _ _ rfl rfl rfl]
    simp [jsInOp, JsValue.jsTypeof]
    tauto
  | vNull => simp [isApiError, JsValue.jsTypeof]
  | vUndefined => simp [isApiError, JsValue.jsTypeof]
  | vBool b => simp [isApiError, JsValue.jsTypeof]
  | vNum n => simp [isApiError, JsValue.jsTypeof]
  | vStr s => simp [isApiError, JsValue.jsTypeof]

/-- C7: construction with an absent or empty apiKey fails, whatever the other
fields, with the configuration kind of SDK error (a direct base instance,
distinct from the api, timeout and network constructors); and when no
transport is available, neither injected nor platform-provided, construction
also fails with the configuration kind. -/
theorem c7_construction_config_error :
    (∀ (cfg : ClientConfig) (g : Bool),
      (cfg.apiKey = none ∨ cfg.apiKey = some "") →
      mkClient cfg g = .error (.base "API key is required") ∧
      ∀ e, mkClient cfg g = .error e → e.isConfigKind = true) ∧
    (∀ (cfg : ClientConfig) (g : Bool),
      cfg.fetchProvided = false → g = false →
      ∃ msg, mkClient cfg g = .error (.base msg) ∧
        WdkIndexerError.isConfigKind (.base msg) = true) := by
  constructor
  · intro cfg g h
    have hk : strTruthy cfg.apiKey = false := by
      rcases h with h | h <;> simp [h, strTruthy]
    have hmk : mkClient cfg g = .error (.base "API key is required") := by
      simp [mkClient, hk]
    refine ⟨hmk, fun e he => ?_⟩
    rw [hmk] at he
    injection he with he2
    rw [← he2]
    rfl
  · intro cfg g hf hg
    by_cases hk : strTruthy cfg.apiKey = true
    · refine ⟨"fetch is not available. Please provide a custom fetch implementation or use Node.js 18+.",
        ?_, rfl⟩
      simp [mkClient, hk, hf, hg]
    · refine ⟨"API key is required", ?_, rfl⟩
      simp only [Bool.not_eq_true] at hk
      simp [mkClient, hk]

/-- Witness for C7: the empty-string apiKey with every optional field present
fails with the configuration kind. -/
theorem c7_construction_config_error_witness :
    mkClient ⟨some "", some "https://x.example/", some 5000, true⟩ true =
      .error (.base "API key is required") ∧
    ∀ e, mkClient ⟨some "", some "https://x.example/", some 5000, true⟩ true =
      .error e → e.isConfigKind = true :=
  c7_construction_config_error.1
    ⟨some "", some "https://x.example/", some 5000, true⟩ true (Or.inr rfl)

/-- C10: isApiError is total over arbitrary values, returning false rather
than failing on null, undefined and every non-object input, whereas both
isTokenTransfersResponse and isTokenBalanceResponse throw a TypeError on
every value that is not a legal operand of the in operator, null included,
because they test key membership without an object guard. -/
theorem c10_classifier_totality :
    (∀ v, ∃ b, isApiError v = .ok b) ∧
    isApiError .vNull = .ok false ∧
    isApiError .vUndefined = .ok false ∧
    (∀ v, isInOperand v = false → isApiError v = .ok false) ∧
    isTokenTransfersResponse .vNull = .error "TypeError" ∧
    isTokenBalanceResponse .vNull = .error "TypeError" ∧
    (∀ v, isInOperand v = false →
      isTokenTransfersResponse v = .error "TypeError" ∧
      isTokenBalanceResponse v = .error "TypeError") := by
  refine ⟨fun v => ?_, rfl, rfl, fun v h => ?_, rfl, rfl, fun v h => ?_⟩
  · cases v with
    | vArr elems => exact ⟨_, isApiError_eval (.vArr elems) _ _ _ rfl rfl rfl⟩
    | vObj fields => exact ⟨_, isApiError_eval (.vObj fields) _ _ _ rfl rfl rfl⟩
    | vNull => exact ⟨false, rfl⟩
    | vUndefined => exact ⟨false, rfl⟩
    | vBool b => exact ⟨false, rfl⟩
    | vNum n => exact ⟨false, rfl⟩
    | vStr s => exact ⟨false, rfl⟩
  · cases v <;> simp [isInOperand] at h <;> rfl
  · cases v <;> simp [isInOperand] at h <;>
      exact ⟨rfl, rfl⟩

/-- Witness for C10: the numeric value five is not an in-operand; isApiError
returns false on it while both success classifiers throw. -/
theorem c10_classifier_totality_witness :
    isApiError (.vNum 5) = .ok false ∧
    isTokenTransfersResponse (.vNum 5) = .error "TypeError" ∧
    isTokenBalanceResponse (.vNum 5) = .error "TypeError" :=
  ⟨c10_classifier_totality.2.2.2.1 (.vNum 5) rfl,
   (c10_classifier_totality.2.2.2.2.2.2 (.vNum 5) rfl).1,
   (c10_classifier_totality.2.2.2.2.2.2 (.vNum 5) rfl).2⟩

/- Lemmas about substring containment and URL construction. -/

theorem leadsWith_self_append (n b : List Char) : leadsWith n (n ++ b) = true := by
  induction n with
  | nil => rfl
  | cons a as ih => simp [leadsWith, ih]

theorem containsSeq_self_append (n b : List Char) :
    containsSeq n (n ++ b) = true := by
  cases hl : n ++ b with
  | nil =>
    have hn : n = [] := by cases n <;> simp_all
    subst hn
    rfl
  | cons x xs =>
    have hstep : containsSeq n (x :: xs) =
        (leadsWith n (x :: xs) || containsSeq n xs) := rfl
    rw [hstep, ← hl, leadsWith_self_append]
    simp

theorem containsSeq_append_left (a n b : List Char) :
    containsSeq n (a ++ (n ++ b)) = true := by
  induction a with
  | nil => simpa using containsSeq_self_append n b
  | cons y ys ih =>
    have hstep : containsSeq n ((y :: ys) ++ (n ++ b)) =
        (leadsWith n ((y :: ys) ++ (n ++ b)) || containsSeq n (ys ++ (n ++ b))) := rfl
    rw [hstep, ih]
    simp

theorem strContainsSub_of_eq (s a n b : String) (h : s = a ++ n ++ b) :
    strContainsSub s n = true := by
  subst h
  unfold strContainsSub
  have hd : (a ++ n ++ b).toList = a.toList ++ (n.toList ++ b.toList) := by
    simp [String.toList, String.data_append]
  rw [hd]
  exact containsSeq_append_left _ _ _

theorem buildUrl_decomp (base path : String)
    (q : Option (List (String × QueryVal))) :
    ∃ suffix, buildUrl base path q = base ++ path ++ suffix := by
  cases q with
  | none => exact ⟨"", by simp [buildUrl, String.append_empty]⟩
  | some l =>
    by_cases h : (queryString l == "") = true
    · exact ⟨"", by simp [buildUrl, h, String.append_empty]⟩
    · refine ⟨"?" ++ queryString l, ?_⟩
      simp only [buildUrl, Bool.not_eq_true] at *
      rw [h]
      simp [String.append_assoc]

theorem char_toNat_lt (c : Char) : c.toNat < 1114112 := by
  have h := c.valid
  rcases h with h | ⟨h1, h2⟩
  · exact Nat.lt_trans h (by norm_num)
  · exact h2

theorem utf8Bytes_lt (n : Nat) (hn : n < 1114112) :
    ∀ b ∈ utf8Bytes n, b < 256 := by
  intro b hb
  unfold utf8Bytes at hb
  split at hb
  · simp at hb; omega
  · split at hb
    · simp at hb
      rcases hb with hb | hb <;> subst hb <;> omega
    · split at hb
      · simp at hb
        rcases hb with hb | hb | hb <;> subst hb <;> omega
      · simp at hb
        rcases hb with hb | hb | hb | hb <;> subst hb <;> omega

theorem hexDigitUpper_ne_slash : ∀ n, n < 16 → (hexDigitUpper n != '/') = true := by
  decide

theorem byteHex_ne_slash (b : Nat) (hb : b < 256) :
    (byteHex b).all (fun ch => ch != '/') = true := by
  have h1 : b / 16 < 16 := by omega
  have h2 : b % 16 < 16 := by omega
  simp only [byteHex, List.all_cons, List.all_nil, Bool.and_true,
    Bool.and_eq_true]
  exact ⟨by decide, hexDigitUpper_ne_slash _ h1, hexDigitUpper_ne_slash _ h2⟩

theorem encodeURIChar_ne_slash (c : Char) :
    (encodeURIChar c).all (fun ch => ch != '/') = true := by
  unfold encodeURIChar
  split
  case isTrue h =>
    have hc : ¬(c = '/') := by
      intro he
      subst he
      exact absurd h (by decide)
    simp [hc]
  case isFalse h =>
    have hlt := char_toNat_lt c
    generalize hB : utf8Bytes c.toNat = bytes
    have hall : ∀ b ∈ bytes, b < 256 := by
      intro b hb
      exact utf8Bytes_lt c.toNat hlt b (hB ▸ hb)
    clear hB
    induction bytes with
    | nil => rfl
    | cons b rest ih =>
      simp only [List.foldr_cons, List.all_append, Bool.and_eq_true]
      refine ⟨byteHex_ne_slash b (hall b (by simp)), ?_⟩
      exact ih fun x hx => hall x (by simp [hx])

theorem encodeURIComponent_no_slash (s : String) :
    (encodeURIComponent s).toList.all (fun ch => ch != '/') = true := by
  unfold encodeURIComponent
  generalize s.toList = cs
  show (cs.foldr (fun c acc => encodeURIChar c ++ acc) []).all
    (fun ch => ch != '/') = true
  induction cs with
  | nil => rfl
  | cons c rest ih =>
    simp only [List.foldr_cons, List.all_append, Bool.and_eq_true]
    exact ⟨encodeURIChar_ne_slash c, ih⟩

/-- C8: the transfers URL contains the percent-encoding of the address; the
balance URL is exactly the base joined with the parameterized path holding
the percent-encoded address; the encoding output never contains a raw slash,
so a slash in an address cannot alter the path structure; and the address of
the specification example encodes to the expected text. -/
theorem c8_address_encoding :
    (∀ (c : WdkIndexerClient) (bc tok addr : String)
       (opts : Option TransferOptions) (b : TransportBehavior),
      strContainsSub (c.getTokenTransfers bc tok addr opts b).url
        (encodeURIComponent addr) = true) ∧
    (∀ (c : WdkIndexerClient) (bc tok addr : String) (b : TransportBehavior),
      (c.getTokenBalance bc tok addr b).url =
        c.baseUrl ++ "/api/v1/" ++ bc ++ "/" ++ tok ++ "/" ++
          encodeURIComponent addr ++ "/token-balances") ∧
    (∀ s, (encodeURIComponent s).toList.all (fun ch => ch != '/') = true) ∧
    encodeURIComponent "0x1234/5678" = "0x1234%2F5678" := by
  refine ⟨?_, ?_, encodeURIComponent_no_slash, by decide⟩
  · intro c bc tok addr opts b
    obtain ⟨suffix, hs⟩ := buildUrl_decomp c.baseUrl
      ("/api/v1/" ++ bc ++ "/" ++ tok ++ "/" ++ encodeURIComponent addr ++
        "/token-transfers")
      (some [("limit", optQ (opts.bind TransferOptions.limit)),
             ("fromTs", optQ (opts.bind TransferOptions.fromTs)),
             ("toTs", optQ (opts.bind TransferOptions.toTs))])
    refine strContainsSub_of_eq _
      (c.baseUrl ++ "/api/v1/" ++ bc ++ "/" ++ tok ++ "/") _
      ("/token-transfers" ++ suffix) ?_
    have hurl : (c.getTokenTransfers bc tok addr opts b).url =
        buildUrl c.baseUrl
          ("/api/v1/" ++ bc ++ "/" ++ tok ++ "/" ++ encodeURIComponent addr ++
            "/token-transfers")
          (some [("limit", optQ (opts.bind TransferOptions.limit)),
                 ("fromTs", optQ (opts.bind TransferOptions.fromTs)),
                 ("toTs", optQ (opts.bind TransferOptions.toTs))]) := rfl
    rw [hurl, hs]
    simp only [String.append_assoc]
  · intro c bc tok addr b
    show c.baseUrl ++ ("/api/v1/" ++ bc ++ "/" ++ tok ++ "/" ++
      encodeURIComponent addr ++ "/token-balances") = _
    simp only [String.append_assoc]

theorem buildParams_filter (q : List (String × QueryVal)) :
    buildParams q =
      (q.filter fun e => !e.2.isUndefined).map fun e => (e.1, e.2.stringify) := by
  have hgen : ∀ acc : List (String × String),
      q.foldl (fun acc e =>
        if e.2.isUndefined then acc else acc ++ [(e.1, e.2.stringify)]) acc =
      acc ++ ((q.filter fun e => !e.2.isUndefined).map fun e =>
        (e.1, e.2.stringify)) := by
    induction q with
    | nil => intro acc; simp
    | cons e rest ih =>
      intro acc
      cases he : e.2.isUndefined <;>
        simp [List.foldl_cons, he, ih, List.filter_cons]
  simpa using hgen []

/-- C9: the executor builds the URL as baseUrl plus path; the appended
parameters are exactly the query entries whose value is not undefined, in
order, each value stringified; when the serialized query is empty no
question mark is appended, otherwise the query string follows one question
mark; and a transfers call that sets only limit yields a URL containing
limit= but no fromTs= and no toTs=. -/
theorem c9_query_string :
    (∀ q, buildParams q =
      (q.filter fun e => !e.2.isUndefined).map fun e => (e.1, e.2.stringify)) ∧
    (∀ base path q, queryString q = "" →
      buildUrl base path (some q) = base ++ path) ∧
    (∀ base path q, queryString q ≠ "" →
      buildUrl base path (some q) = base ++ path ++ "?" ++ queryString q) ∧
    (strContainsSub urlLimitOnly "limit=" = true ∧
     strContainsSub urlLimitOnly "fromTs=" = false ∧
     strContainsSub urlLimitOnly "toTs=" = false) := by
  refine ⟨buildParams_filter, ?_, ?_, by decide, by decide, by decide⟩
  · intro base path q h
    simp [buildUrl, h]
  · intro base path q h
    have hb : (queryString q == "") = false := by
      simpa using h
    simp [buildUrl, hb]

/-- Witness for C9: a query holding one defined and one undefined entry
serializes behind one question mark. -/
theorem c9_query_string_witness :
    buildUrl "https://x" "/p"
        (some [("limit", QueryVal.num 10), ("fromTs", QueryVal.undefined)]) =
      "https://x" ++ "/p" ++ "?" ++
        queryString [("limit", QueryVal.num 10), ("fromTs", QueryVal.undefined)] :=
  c9_query_string.2.2.1 "https://x" "/p"
    [("limit", QueryVal.num 10), ("fromTs", QueryVal.undefined)] (by decide)

end WdkIndexerHttp
